import Mathlib

/-!
Verification development for the Nigerian Maize Yield Prediction API
(src/API/main.py). The request pipeline — pydantic field validation,
categorical encoding, interaction feature, schema reordering, predictor
invocation, response assembly — is embedded as executable Lean
definitions, and the behavioural claims about it are proved below.

Modelling conventions: Python floats are modelled as ℚ; the loaded model
artifacts (label encoder classes, feature-name schema, the opaque
regression model) are gathered into a `Config` record, with the model
itself an opaque function `List ℚ → Except String ℚ` that may fail;
raised exceptions are modelled with `Except`; an HTTP endpoint outcome is
a sum of an OK payload, a 422 validation error, and a 500 internal error.
-/

namespace MaizeAPI

/-- ASCII lowercasing of a string, character by character; models Python
`str.lower()` on the ASCII inputs relevant here. -/
def lowerString (s : String) : String := ⟨s.data.map Char.toLower⟩

/-- The five user-supplied fields of a prediction request, as parsed from
JSON before any validation (`YieldPredictionRequest` raw input). -/
structure RawRequest where
  state : String
  season : String
  year : Int
  area_ha : ℚ
  quality_grade : String

/-- A request that passed all pydantic validators; `season` is already
normalized to lowercase. -/
structure ValidatedRequest where
  state : String
  season : String
  year : Int
  area_ha : ℚ
  quality_grade : String
deriving DecidableEq

/-- One pydantic field error: which field failed and the message. -/
structure FieldError where
  loc : String
  msg : String
deriving DecidableEq

/-- The message built by `validate_state` for an unrecognized state: the
first 10 known states and a count of the remainder (`len(VALID_STATES)-10`,
an `Int`, since Python happily prints a negative count). -/
def stateNotRecognizedMsg (validStates : List String) (v : String) : String :=
  "State \x27" ++ v ++ "\x27 not recognized. Available states: " ++
    String.intercalate ", " (validStates.take 10) ++
    "... (and " ++ toString ((validStates.length : Int) - 10) ++ " more)"

/-- The message built by `validate_grade` for an unrecognized grade: the
full list of known grades. -/
def gradeNotRecognizedMsg (validGrades : List String) (v : String) : String :=
  "Quality grade \x27" ++ v ++ "\x27 not recognized. Available grades: " ++
    String.intercalate ", " validGrades

/-- Pydantic validator `validate_season`: lowercase the input and accept
exactly "wet" and "dry", returning the lowercased value. -/
def validate_season (v : String) : Except String String :=
  let v_lower := lowerString v
  if v_lower ∉ (["wet", "dry"] : List String) then
    .error "Season must be either \x27wet\x27 or \x27dry\x27"
  else
    .ok v_lower

/-- Pydantic validator `validate_state`: case-sensitive membership in
`VALID_STATES` (the state label encoder classes). -/
def validate_state (validStates : List String) (v : String) : Except String String :=
  if v ∉ validStates then
    .error (stateNotRecognizedMsg validStates v)
  else
    .ok v

/-- Pydantic validator `validate_grade`: case-sensitive membership in
`VALID_GRADES` (the grade label encoder classes). -/
def validate_grade (validGrades : List String) (v : String) : Except String String :=
  if v ∉ validGrades then
    .error (gradeNotRecognizedMsg validGrades v)
  else
    .ok v

/-- Pydantic `Field(ge=2000, le=2030)` constraint on `year`. -/
def validate_year (y : Int) : Except String Int :=
  if y < 2000 then .error "Input should be greater than or equal to 2000"
  else if 2030 < y then .error "Input should be less than or equal to 2030"
  else .ok y

/-- Pydantic `Field(gt=0.0, le=1000.0)` constraint on `area_ha`. -/
def validate_area (a : ℚ) : Except String ℚ :=
  if ¬ 0 < a then .error "Input should be greater than 0"
  else if 1000 < a then .error "Input should be less than or equal to 1000"
  else .ok a

/-- Collect the field error of one validator outcome, tagged with the
field name, as pydantic does when assembling a 422 body. -/
def errsOf {α : Type} (loc : String) : Except String α → List FieldError
  | .ok _ => []
  | .error m => [⟨loc, m⟩]

/-- All field errors of a raw request, in model declaration order
(state, season, year, area_ha, quality_grade). -/
def validationErrors (validStates validGrades : List String) (r : RawRequest) :
    List FieldError :=
  errsOf "state" (validate_state validStates r.state) ++
  errsOf "season" (validate_season r.season) ++
  errsOf "year" (validate_year r.year) ++
  errsOf "area_ha" (validate_area r.area_ha) ++
  errsOf "quality_grade" (validate_grade validGrades r.quality_grade)

/-- Full pydantic validation of a `YieldPredictionRequest`: the request is
accepted iff every field validator accepts, and then carries the
normalized values; otherwise the collected field errors are reported. -/
def validateRequest (validStates validGrades : List String) (r : RawRequest) :
    Except (List FieldError) ValidatedRequest :=
  match validate_state validStates r.state, validate_season r.season,
        validate_year r.year, validate_area r.area_ha,
        validate_grade validGrades r.quality_grade with
  | .ok st, .ok se, .ok y, .ok a, .ok g => .ok ⟨st, se, y, a, g⟩
  | _, _, _, _, _ => .error (validationErrors validStates validGrades r)

/-- Index of a label in an encoder class list: sklearn
`LabelEncoder.transform` for a single label (classes are the loaded
`classes_` array; the result is the position of the label in it). -/
def labelIndex : List String → String → Option Nat
  | [], _ => none
  | c :: cs, v => if c = v then some 0 else (labelIndex cs v).map (· + 1)

/-- Process-wide state loaded from the artifacts at startup: the two
class lists of the two encoders, the feature-name schema, the opaque model, and
whether the model object is present. -/
structure Config where
  validStates : List String
  validGrades : List String
  feature_names : List String
  predict : List ℚ → Except String ℚ
  modelLoaded : Bool

/-- Season flag: `1` when the season equals "wet", else `0`. -/
def is_wet (season : String) : Nat :=
  if season = "wet" then 1 else 0

/-- The named feature columns the handler assembles into the one-row
DataFrame, in the construction order of the source, including the derived
`area_wet_interaction = area_ha * is_wet`. Fails like
`LabelEncoder.transform` on an unseen label. -/
def encodeFeatures (cfg : Config) (req : ValidatedRequest) :
    Except String (List (String × ℚ)) :=
  match labelIndex cfg.validStates req.state with
  | none => .error ("y contains previously unseen labels: " ++ req.state)
  | some state_encoded =>
    match labelIndex cfg.validGrades req.quality_grade with
    | none => .error ("y contains previously unseen labels: " ++ req.quality_grade)
    | some grade_encoded =>
      .ok [("state", (state_encoded : ℚ)),
           ("is_wet", (is_wet req.season : ℚ)),
           ("year", (req.year : ℚ)),
           ("area_ha", req.area_ha),
           ("quality_grade", (grade_encoded : ℚ)),
           ("area_wet_interaction", req.area_ha * (is_wet req.season : ℚ))]

/-- Column selection `input_data[feature_names]`: for each schema name in
order, the value of the column of that name; a missing column raises a
KeyError. -/
def reorderColumns (cols : List (String × ℚ)) : List String → Except String (List ℚ)
  | [] => .ok []
  | n :: ns =>
    match List.lookup n cols with
    | none => .error ("KeyError: " ++ n)
    | some v => (reorderColumns cols ns).map (fun vs => v :: vs)

/-- Round-half-to-even of a rational to an integer, the rounding used by the
Python `round` builtin. -/
def roundHalfEven (x : ℚ) : Int :=
  let f := ⌊x⌋
  let r := x - (f : ℚ)
  if r < 1/2 then f
  else if 1/2 < r then f + 1
  else if f % 2 = 0 then f else f + 1

/-- Python `round(x, 2)`: round to 2 decimal places. -/
def round2 (x : ℚ) : ℚ := ((roundHalfEven (x * 100) : ℚ)) / 100

/-- The `input_parameters` echo dictionary of a response. -/
structure InputParams where
  state : String
  season : String
  year : Int
  area_ha : ℚ
  quality_grade : String
deriving DecidableEq

/-- Response model of the `/predict` endpoint. -/
structure YieldPredictionResponse where
  predicted_yield : ℚ
  input_parameters : InputParams
  model_used : String
  unit : String
deriving DecidableEq

/-- Body of the `/predict` handler after validation (the `try` block of
`predict_yield`): encode the features, reorder per `feature_names`, call
the model, round to 2 decimals and assemble the response. Any raised
exception surfaces as `.error`. -/
def predict_yield (cfg : Config) (req : ValidatedRequest) :
    Except String YieldPredictionResponse :=
  match encodeFeatures cfg req with
  | .error e => .error e
  | .ok cols =>
    match reorderColumns cols cfg.feature_names with
    | .error e => .error e
    | .ok input_data =>
      match cfg.predict input_data with
      | .error e => .error e
      | .ok prediction =>
        .ok ⟨round2 prediction,
             ⟨req.state, req.season, req.year, req.area_ha, req.quality_grade⟩,
             "Random Forest", "tonnes/hectare"⟩

/-- Outcome of one HTTP call to `/predict`: success payload, a 422
validation rejection, or a 500 internal error with its detail string. -/
inductive PredictOutcome where
  | ok (resp : YieldPredictionResponse)
  | validationError (errs : List FieldError)
  | internalError (detail : String)
deriving DecidableEq

/-- HTTP status code of an outcome. -/
def statusOf : PredictOutcome → Nat
  | .ok _ => 200
  | .validationError _ => 422
  | .internalError _ => 500

/-- The `/predict` endpoint end to end: pydantic validation (422 on
failure), then the handler body, whose exception—if any—is converted to
an HTTP 500 with detail `"Prediction failed: " ++ str(e)`. -/
def handle_predict (cfg : Config) (r : RawRequest) : PredictOutcome :=
  match validateRequest cfg.validStates cfg.validGrades r with
  | .error errs => .validationError errs
  | .ok req =>
    match predict_yield cfg req with
    | .error e => .internalError ("Prediction failed: " ++ e)
    | .ok resp => .ok resp

/-- A for-loop over a list that stops at the first raised exception,
collecting the results in order. -/
def mapExcept {α β ε : Type} (f : α → Except ε β) : List α → Except ε (List β)
  | [] => .ok []
  | x :: xs =>
    match f x with
    | .error e => .error e
    | .ok y => (mapExcept f xs).map (fun ys => y :: ys)

/-- Outcome of one HTTP call to `/predict/batch`. -/
inductive BatchOutcome where
  | ok (count : Nat) (predictions : List YieldPredictionResponse)
  | validationError (errs : List FieldError)
  | internalError (detail : String)
deriving DecidableEq

/-- The `/predict/batch` endpoint: the whole request list is validated
first (any invalid item rejects the batch with 422); then the handler
loops over the items reusing the single-prediction logic, and an HTTPException of any
item aborts the whole batch as a 500. On success the body is
`{count, predictions}` in input order. -/
def predict_yield_batch (cfg : Config) (rs : List RawRequest) : BatchOutcome :=
  match mapExcept (validateRequest cfg.validStates cfg.validGrades) rs with
  | .error errs => .validationError errs
  | .ok reqs =>
    match mapExcept (fun req =>
        (predict_yield cfg req).mapError
          (fun e => "500: Prediction failed: " ++ e)) reqs with
    | .error e => .internalError ("Batch prediction failed: " ++ e)
    | .ok predictions => .ok predictions.length predictions

/-- A JSON-ish value appearing in the health body. -/
inductive JVal where
  | s (v : String)
  | b (v : Bool)
  | n (v : Nat)
deriving DecidableEq

/-- The `/health` endpoint body as an ordered key–value object, exactly
the dictionary literal returned by `health_check` in the source. -/
def health_check (cfg : Config) : List (String × JVal) :=
  [("status", JVal.s "healthy"),
   ("model_loaded", JVal.b cfg.modelLoaded),
   ("available_states", JVal.n cfg.validStates.length),
   ("available_grades", JVal.n cfg.validGrades.length)]

/-! ## Helper lemmas about the validators -/

theorem validate_state_ok_iff (ss : List String) (v w : String) :
    validate_state ss v = .ok w ↔ v ∈ ss ∧ w = v := by
  unfold validate_state
  split
  · rename_i h
    simp [h]
  · rename_i h
    rw [not_not] at h
    simp [h, eq_comm]

theorem validate_grade_ok_iff (gs : List String) (v w : String) :
    validate_grade gs v = .ok w ↔ v ∈ gs ∧ w = v := by
  unfold validate_grade
  split
  · rename_i h
    simp [h]
  · rename_i h
    rw [not_not] at h
    simp [h, eq_comm]

theorem validate_season_ok_iff (v w : String) :
    validate_season v = .ok w ↔
      (lowerString v = "wet" ∨ lowerString v = "dry") ∧ w = lowerString v := by
  simp only [validate_season]
  split
  · rename_i h
    simp only [List.mem_cons, List.mem_singleton, List.not_mem_nil, or_false, not_or] at h
    simp [h.1, h.2]
  · rename_i h
    rw [not_not] at h
    simp only [List.mem_cons, List.mem_singleton, List.not_mem_nil, or_false] at h
    constructor
    · intro hw
      injection hw with hw
      exact ⟨h, hw.symm⟩
    · rintro ⟨-, rfl⟩
      rfl

theorem validate_year_ok_iff (y w : Int) :
    validate_year y = .ok w ↔ 2000 ≤ y ∧ y ≤ 2030 ∧ w = y := by
  unfold validate_year
  split_ifs with h1 h2 <;> simp <;> omega

theorem validate_area_ok_iff (a w : ℚ) :
    validate_area a = .ok w ↔ 0 < a ∧ a ≤ 1000 ∧ w = a := by
  unfold validate_area
  split
  · rename_i h1
    constructor
    · intro hc
      exact absurd hc (by simp)
    · intro hc
      exact absurd hc.1 h1
  · rename_i h1
    rw [not_not] at h1
    split
    · rename_i h2
      constructor
      · intro hc
        exact absurd hc (by simp)
      · intro hc
        exact absurd hc.2.1 (not_le.mpr h2)
    · rename_i h2
      rw [not_lt] at h2
      constructor
      · intro hc
        injection hc with hc
        exact ⟨h1, h2, hc.symm⟩
      · rintro ⟨-, -, rfl⟩
        rfl

theorem validateRequest_ok_iff (vs gs : List String) (r : RawRequest)
    (req : ValidatedRequest) :
    validateRequest vs gs r = .ok req ↔
      r.state ∈ vs ∧ (lowerString r.season = "wet" ∨ lowerString r.season = "dry") ∧
      2000 ≤ r.year ∧ r.year ≤ 2030 ∧ 0 < r.area_ha ∧ r.area_ha ≤ 1000 ∧
      r.quality_grade ∈ gs ∧
      req = ⟨r.state, lowerString r.season, r.year, r.area_ha, r.quality_grade⟩ := by
  constructor
  · intro h
    unfold validateRequest at h
    split at h
    · rename_i st se y a g hst hse hy ha hg
      obtain ⟨hs1, hs2⟩ := (validate_state_ok_iff vs r.state st).mp hst
      obtain ⟨he1, he2⟩ := (validate_season_ok_iff r.season se).mp hse
      obtain ⟨hy1, hy2, hy3⟩ := (validate_year_ok_iff r.year y).mp hy
      obtain ⟨ha1, ha2, ha3⟩ := (validate_area_ok_iff r.area_ha a).mp ha
      obtain ⟨hg1, hg2⟩ := (validate_grade_ok_iff gs r.quality_grade g).mp hg
      injection h with h
      subst h hs2 he2 hy3 ha3 hg2
      exact ⟨hs1, he1, hy1, hy2, ha1, ha2, hg1, rfl⟩
    · exact absurd h (by simp)
  · rintro ⟨h1, h2, h3, h4, h5, h6, h7, rfl⟩
    have hst : validate_state vs r.state = .ok r.state :=
      (validate_state_ok_iff vs r.state r.state).mpr ⟨h1, rfl⟩
    have hse : validate_season r.season = .ok (lowerString r.season) :=
      (validate_season_ok_iff r.season (lowerString r.season)).mpr ⟨h2, rfl⟩
    have hy : validate_year r.year = .ok r.year :=
      (validate_year_ok_iff r.year r.year).mpr ⟨h3, h4, rfl⟩
    have ha : validate_area r.area_ha = .ok r.area_ha :=
      (validate_area_ok_iff r.area_ha r.area_ha).mpr ⟨h5, h6, rfl⟩
    have hg : validate_grade gs r.quality_grade = .ok r.quality_grade :=
      (validate_grade_ok_iff gs r.quality_grade r.quality_grade).mpr ⟨h7, rfl⟩
    unfold validateRequest
    rw [hst, hse, hy, ha, hg]

theorem validateRequest_error_cases (vs gs : List String) (r : RawRequest)
    (h : r.state ∉ vs ∨
         ¬ (lowerString r.season = "wet" ∨ lowerString r.season = "dry") ∨
         ¬ (2000 ≤ r.year ∧ r.year ≤ 2030) ∨
         ¬ (0 < r.area_ha ∧ r.area_ha ≤ 1000) ∨
         r.quality_grade ∉ gs) :
    validateRequest vs gs r = .error (validationErrors vs gs r) := by
  unfold validateRequest
  split
  · rename_i st se y a g hst hse hy ha hg
    exfalso
    obtain ⟨hs1, -⟩ := (validate_state_ok_iff vs r.state st).mp hst
    obtain ⟨he1, -⟩ := (validate_season_ok_iff r.season se).mp hse
    obtain ⟨hy1, hy2, -⟩ := (validate_year_ok_iff r.year y).mp hy
    obtain ⟨ha1, ha2, -⟩ := (validate_area_ok_iff r.area_ha a).mp ha
    obtain ⟨hg1, -⟩ := (validate_grade_ok_iff gs r.quality_grade g).mp hg
    rcases h with h | h | h | h | h
    · exact h hs1
    · exact h he1
    · exact h ⟨hy1, hy2⟩
    · exact h ⟨ha1, ha2⟩
    · exact h hg1
  · rfl

theorem state_error_mem (vs gs : List String) (r : RawRequest)
    (h : r.state ∉ vs) :
    (⟨"state", stateNotRecognizedMsg vs r.state⟩ : FieldError) ∈
      validationErrors vs gs r := by
  unfold validationErrors validate_state
  rw [if_pos h]
  simp [errsOf]

/-! ## Helper lemmas about column reordering and the batch loop -/

theorem reorderColumns_ok_length (cols : List (String × ℚ)) :
    ∀ (ns : List String) (v : List ℚ),
      reorderColumns cols ns = .ok v → v.length = ns.length := by
  intro ns
  induction ns with
  | nil =>
    intro v h
    unfold reorderColumns at h
    injection h with h
    subst h
    rfl
  | cons n ns ih =>
    intro v h
    unfold reorderColumns at h
    cases hl : List.lookup n cols with
    | none =>
      rw [hl] at h
      exact absurd h (by simp)
    | some x =>
      rw [hl] at h
      cases hr : reorderColumns cols ns with
      | error e =>
        rw [hr] at h
        exact absurd h (by simp [Except.map])
      | ok ys =>
        rw [hr] at h
        simp only [Except.map, Except.ok.injEq] at h
        subst h
        simp [ih ys hr]

theorem reorderColumns_ok_lookup (cols : List (String × ℚ)) :
    ∀ (ns : List String) (v : List ℚ),
      reorderColumns cols ns = .ok v →
      ∀ i (hi : i < ns.length) (hv : i < v.length),
        List.lookup (ns.get ⟨i, hi⟩) cols = some (v.get ⟨i, hv⟩) := by
  intro ns
  induction ns with
  | nil =>
    intro v h i hi hv
    exact absurd hi (by simp)
  | cons n ns ih =>
    intro v h i hi hv
    unfold reorderColumns at h
    cases hl : List.lookup n cols with
    | none =>
      rw [hl] at h
      exact absurd h (by simp)
    | some x =>
      rw [hl] at h
      cases hr : reorderColumns cols ns with
      | error e =>
        rw [hr] at h
        exact absurd h (by simp [Except.map])
      | ok ys =>
        rw [hr] at h
        simp only [Except.map, Except.ok.injEq] at h
        subst h
        cases i with
        | zero => simpa using hl
        | succ j => exact ih ys hr j (by simpa using hi) (by simpa using hv)

theorem reorderColumns_congr (cols cols' : List (String × ℚ))
    (h : ∀ n, List.lookup n cols' = List.lookup n cols) :
    ∀ ns : List String, reorderColumns cols' ns = reorderColumns cols ns := by
  intro ns
  induction ns with
  | nil => rfl
  | cons n ns ih =>
    unfold reorderColumns
    rw [h n, ih]

theorem mapExcept_ok_length {α β ε : Type} (f : α → Except ε β) :
    ∀ (xs : List α) (ys : List β),
      mapExcept f xs = .ok ys → ys.length = xs.length := by
  intro xs
  induction xs with
  | nil =>
    intro ys h
    unfold mapExcept at h
    injection h with h
    subst h
    rfl
  | cons x xs ih =>
    intro ys h
    unfold mapExcept at h
    cases hf : f x with
    | error e =>
      rw [hf] at h
      exact absurd h (by simp)
    | ok y =>
      rw [hf] at h
      cases hr : mapExcept f xs with
      | error e =>
        rw [hr] at h
        exact absurd h (by simp [Except.map])
      | ok zs =>
        rw [hr] at h
        simp only [Except.map, Except.ok.injEq] at h
        subst h
        simp [ih zs hr]

theorem mapExcept_ok_get {α β ε : Type} (f : α → Except ε β) :
    ∀ (xs : List α) (ys : List β),
      mapExcept f xs = .ok ys →
      ∀ i (hx : i < xs.length) (hy : i < ys.length),
        f (xs.get ⟨i, hx⟩) = .ok (ys.get ⟨i, hy⟩) := by
  intro xs
  induction xs with
  | nil =>
    intro ys h i hx hy
    exact absurd hx (by simp)
  | cons x xs ih =>
    intro ys h i hx hy
    unfold mapExcept at h
    cases hf : f x with
    | error e =>
      rw [hf] at h
      exact absurd h (by simp)
    | ok y =>
      rw [hf] at h
      cases hr : mapExcept f xs with
      | error e =>
        rw [hr] at h
        exact absurd h (by simp [Except.map])
      | ok zs =>
        rw [hr] at h
        simp only [Except.map, Except.ok.injEq] at h
        subst h
        cases i with
        | zero => simpa using hf
        | succ j => exact ih zs hr j (by simpa using hx) (by simpa using hy)

theorem mapError_ok_iff {ε ε' β : Type} (f : ε → ε') (x : Except ε β) (b : β) :
    x.mapError f = .ok b ↔ x = .ok b := by
  cases x <;> simp [Except.mapError]

/-! ## Concrete fixtures used by the witnesses and counterexamples -/

/-- A small concrete configuration: two known states, two known grades,
the schema in the assembly order of the source, a model that always predicts
3 tonnes/hectare. -/
def cfgEx : Config :=
  ⟨["Abia", "Kano"], ["A", "B"],
   ["state", "is_wet", "year", "area_ha", "quality_grade", "area_wet_interaction"],
   fun _ => .ok 3, true⟩

/-- The same encoders with the schema order permuted. -/
def cfgPerm : Config :=
  ⟨["Abia", "Kano"], ["A", "B"],
   ["area_ha", "year", "state", "is_wet", "area_wet_interaction", "quality_grade"],
   fun _ => .ok 3, true⟩

/-- The same encoders with a model that raises. -/
def cfgLeak : Config :=
  ⟨["Abia", "Kano"], ["A", "B"],
   ["state", "is_wet", "year", "area_ha", "quality_grade", "area_wet_interaction"],
   fun _ => .error "ValueError: boom", true⟩

/-- Like `cfgLeak` but with a different internal exception message. -/
def cfgLeakB : Config :=
  ⟨["Abia", "Kano"], ["A", "B"],
   ["state", "is_wet", "year", "area_ha", "quality_grade", "area_wet_interaction"],
   fun _ => .error "ValueError: other", true⟩

/-- A valid wet-season request with an uppercase season spelling. -/
def rawWet : RawRequest := ⟨"Kano", "WET", 2023, 5, "A"⟩

/-- The validated form of `rawWet`. -/
def reqWet : ValidatedRequest := ⟨"Kano", "wet", 2023, 5, "A"⟩

/-- A valid dry-season request. -/
def rawDry : RawRequest := ⟨"Abia", "dry", 2020, 3, "B"⟩

/-- The validated form of `rawDry`. -/
def reqDry : ValidatedRequest := ⟨"Abia", "dry", 2020, 3, "B"⟩

/-- A request whose state is not among the known states of `cfgEx`. -/
def rawUnknownState : RawRequest := ⟨"Lagos", "wet", 2023, 5, "A"⟩

/-- A request whose year is below the accepted range. -/
def rawBadYear : RawRequest := ⟨"Kano", "wet", 1999, 5, "A"⟩

/-- The feature columns assembled for `reqWet` under `cfgEx`. -/
def colsWet : List (String × ℚ) :=
  [("state", ((1 : ℕ) : ℚ)), ("is_wet", ((1 : ℕ) : ℚ)), ("year", ((2023 : ℤ) : ℚ)),
   ("area_ha", 5), ("quality_grade", ((0 : ℕ) : ℚ)),
   ("area_wet_interaction", 5 * ((1 : ℕ) : ℚ))]

/-- The response produced for `rawWet` under `cfgEx`. -/
def respWet : YieldPredictionResponse :=
  ⟨round2 3, ⟨"Kano", "wet", 2023, 5, "A"⟩, "Random Forest", "tonnes/hectare"⟩

/-- The response produced for `rawDry` under `cfgEx`. -/
def respDry : YieldPredictionResponse :=
  ⟨round2 3, ⟨"Abia", "dry", 2020, 3, "B"⟩, "Random Forest", "tonnes/hectare"⟩

theorem handle_predict_of_ok (cfg : Config) (r : RawRequest) (req : ValidatedRequest)
    (hv : validateRequest cfg.validStates cfg.validGrades r = .ok req) :
    handle_predict cfg r =
      match predict_yield cfg req with
      | .error e => .internalError ("Prediction failed: " ++ e)
      | .ok resp => .ok resp := by
  unfold handle_predict
  rw [hv]

theorem predict_yield_of_encode (cfg : Config) (req : ValidatedRequest)
    (cols : List (String × ℚ)) (hce : encodeFeatures cfg req = .ok cols) :
    predict_yield cfg req =
      match reorderColumns cols cfg.feature_names with
      | .error e => .error e
      | .ok input_data =>
        match cfg.predict input_data with
        | .error e => .error e
        | .ok prediction =>
          .ok ⟨round2 prediction,
               ⟨req.state, req.season, req.year, req.area_ha, req.quality_grade⟩,
               "Random Forest", "tonnes/hectare"⟩ := by
  unfold predict_yield
  rw [hce]

theorem predict_yield_of_reorder (cfg : Config) (req : ValidatedRequest)
    (cols : List (String × ℚ)) (vec : List ℚ)
    (hce : encodeFeatures cfg req = .ok cols)
    (hrc : reorderColumns cols cfg.feature_names = .ok vec) :
    predict_yield cfg req =
      match cfg.predict vec with
      | .error e => .error e
      | .ok prediction =>
        .ok ⟨round2 prediction,
             ⟨req.state, req.season, req.year, req.area_ha, req.quality_grade⟩,
             "Random Forest", "tonnes/hectare"⟩ := by
  rw [predict_yield_of_encode cfg req cols hce, hrc]

/-! ## The claims -/

/-- C1: For every validated request, the interaction term placed in the
assembled feature columns equals `area_ha` multiplied by the wet flag:
when the season is "dry" it is 0 regardless of `area_ha`, and when the
season is "wet" it equals `area_ha` exactly. -/
theorem C1_interaction_term (cfg : Config) (r : RawRequest) (req : ValidatedRequest)
    (cols : List (String × ℚ))
    (hv : validateRequest cfg.validStates cfg.validGrades r = .ok req)
    (he : encodeFeatures cfg req = .ok cols) :
    List.lookup "area_wet_interaction" cols =
      some (req.area_ha * (is_wet req.season : ℚ)) ∧
    (req.season = "dry" → List.lookup "area_wet_interaction" cols = some 0) ∧
    (req.season = "wet" → List.lookup "area_wet_interaction" cols = some req.area_ha) := by
  unfold encodeFeatures at he
  cases hst : labelIndex cfg.validStates req.state with
  | none =>
    rw [hst] at he
    exact absurd he (by simp)
  | some state_encoded =>
    rw [hst] at he
    cases hgr : labelIndex cfg.validGrades req.quality_grade with
    | none =>
      rw [hgr] at he
      exact absurd he (by simp)
    | some grade_encoded =>
      rw [hgr] at he
      injection he with he
      subst he
      refine ⟨rfl, ?_, ?_⟩
      · intro hs
        rw [hs]
        simp [List.lookup, is_wet]
      · intro hs
        rw [hs]
        simp [List.lookup, is_wet]

/-- C1 witness: a concrete wet-season request with area 5 whose assembled
interaction term is exactly the area. -/
theorem C1_interaction_term_witness :
    List.lookup "area_wet_interaction" colsWet = some (5 : ℚ) :=
  (C1_interaction_term cfgEx rawWet reqWet colsWet rfl rfl).2.2 rfl

/-- C2: For every validated request, the vector handed to the predictor
has one slot per declared schema column, slot `i` holding exactly the
value of the assembled column named by `feature_names[i]` — so the slot
order is the declared order of the schema — and the reordered vector is
unchanged under any reshuffling of the assembled columns that preserves
the name-to-value mapping (the assembly order is irrelevant). -/
theorem C2_schema_order (cfg : Config) (r : RawRequest) (req : ValidatedRequest)
    (cols : List (String × ℚ)) (vec : List ℚ)
    (hv : validateRequest cfg.validStates cfg.validGrades r = .ok req)
    (he : encodeFeatures cfg req = .ok cols)
    (hr : reorderColumns cols cfg.feature_names = .ok vec) :
    vec.length = cfg.feature_names.length ∧
    (∀ i (hi : i < cfg.feature_names.length) (hvi : i < vec.length),
        List.lookup (cfg.feature_names.get ⟨i, hi⟩) cols = some (vec.get ⟨i, hvi⟩)) ∧
    (∀ cols' : List (String × ℚ),
        (∀ n, List.lookup n cols' = List.lookup n cols) →
        reorderColumns cols' cfg.feature_names = .ok vec) := by
  refine ⟨reorderColumns_ok_length cols cfg.feature_names vec hr,
          reorderColumns_ok_lookup cols cfg.feature_names vec hr, ?_⟩
  intro cols' hcc
  rw [reorderColumns_congr cols cols' hcc cfg.feature_names]
  exact hr

/-- C2 witness: under the permuted schema of `cfgPerm`, the concrete
vector of the wet-season request follows the schema order, not the assembly
order. -/
theorem C2_schema_order_witness :
    ([5, ((2023 : ℤ) : ℚ), ((1 : ℕ) : ℚ), ((1 : ℕ) : ℚ), 5 * ((1 : ℕ) : ℚ),
      ((0 : ℕ) : ℚ)] : List ℚ).length = cfgPerm.feature_names.length :=
  (C2_schema_order cfgPerm rawWet reqWet colsWet
    [5, ((2023 : ℤ) : ℚ), ((1 : ℕ) : ℚ), ((1 : ℕ) : ℚ), 5 * ((1 : ℕ) : ℚ), ((0 : ℕ) : ℚ)]
    rfl rfl rfl).1

/-- C3: Season validation accepts an input string iff its lowercase form
is "wet" or "dry", and the accepted value is the lowercase form; any
other string is rejected with the season validation error. -/
theorem C3_season_normalization (v : String) :
    (∀ w, validate_season v = .ok w ↔
        ((lowerString v = "wet" ∨ lowerString v = "dry") ∧ w = lowerString v)) ∧
    (¬ (lowerString v = "wet" ∨ lowerString v = "dry") →
        validate_season v = .error "Season must be either \x27wet\x27 or \x27dry\x27") := by
  refine ⟨fun w => validate_season_ok_iff v w, fun h => ?_⟩
  simp only [validate_season]
  rw [if_pos]
  simp only [List.mem_cons, List.mem_singleton, List.not_mem_nil, or_false]
  exact h

/-- C3 witness: "WET" normalizes to "wet" and is accepted; "rainy" is
rejected. -/
theorem C3_season_normalization_witness :
    validate_season "WET" = .ok "wet" ∧
    validate_season "rainy" = .error "Season must be either \x27wet\x27 or \x27dry\x27" :=
  ⟨((C3_season_normalization "WET").1 "wet").mpr ⟨Or.inl rfl, rfl⟩,
   (C3_season_normalization "rainy").2 (by decide)⟩

/-- C4: For every state label not in the known state set (case-sensitive
exact match against `VALID_STATES`), validation fails carrying the
unknown-state error, whose message presents valid options (the first 10
known states); the request is answered 422 and neither the feature
encoder nor the predictor is ever invoked: the outcome is the same fixed
validation error under any feature schema, any predictor, and any model
flag. -/
theorem C4_unknown_state (cfg : Config) (r : RawRequest)
    (h : r.state ∉ cfg.validStates) :
    validateRequest cfg.validStates cfg.validGrades r =
      .error (validationErrors cfg.validStates cfg.validGrades r) ∧
    (⟨"state", "State \x27" ++ r.state ++ "\x27 not recognized. Available states: " ++
        String.intercalate ", " (cfg.validStates.take 10) ++ "... (and " ++
        toString ((cfg.validStates.length : Int) - 10) ++ " more)"⟩ : FieldError) ∈
      validationErrors cfg.validStates cfg.validGrades r ∧
    statusOf (handle_predict cfg r) = 422 ∧
    (∀ cfg' : Config, cfg'.validStates = cfg.validStates →
        cfg'.validGrades = cfg.validGrades →
        handle_predict cfg' r =
          .validationError (validationErrors cfg.validStates cfg.validGrades r)) := by
  have hvr := validateRequest_error_cases cfg.validStates cfg.validGrades r (Or.inl h)
  have hall : ∀ cfg' : Config, cfg'.validStates = cfg.validStates →
      cfg'.validGrades = cfg.validGrades →
      handle_predict cfg' r =
        .validationError (validationErrors cfg.validStates cfg.validGrades r) := by
    intro cfg' h1 h2
    unfold handle_predict
    rw [h1, h2, hvr]
  refine ⟨hvr, state_error_mem cfg.validStates cfg.validGrades r h, ?_, hall⟩
  rw [hall cfg rfl rfl]
  rfl

/-- C4 witness: the unknown state "Lagos" under the two-state
configuration is answered 422. -/
theorem C4_unknown_state_witness :
    statusOf (handle_predict cfgEx rawUnknownState) = 422 :=
  (C4_unknown_state cfgEx rawUnknownState (by decide)).2.2.1

/-- C9: A request is rejected by validation — answered 422 with the same
fixed outcome under any feature schema and predictor, so the encoder is
never reached — whenever `year` lies outside [2000, 2030] or `area_ha`
lies outside (0, 1000]; and values inside both ranges pass the year and
area checks. -/
theorem C9_range_validation (cfg : Config) (r : RawRequest) :
    ((¬ (2000 ≤ r.year ∧ r.year ≤ 2030) ∨ ¬ (0 < r.area_ha ∧ r.area_ha ≤ 1000)) →
       validateRequest cfg.validStates cfg.validGrades r =
         .error (validationErrors cfg.validStates cfg.validGrades r) ∧
       statusOf (handle_predict cfg r) = 422 ∧
       (∀ cfg' : Config, cfg'.validStates = cfg.validStates →
           cfg'.validGrades = cfg.validGrades →
           handle_predict cfg' r =
             .validationError (validationErrors cfg.validStates cfg.validGrades r))) ∧
    ((2000 ≤ r.year ∧ r.year ≤ 2030) → (0 < r.area_ha ∧ r.area_ha ≤ 1000) →
       validate_year r.year = .ok r.year ∧ validate_area r.area_ha = .ok r.area_ha) := by
  constructor
  · intro h
    have hvr := validateRequest_error_cases cfg.validStates cfg.validGrades r
      (Or.inr (Or.inr (by tauto)))
    have hall : ∀ cfg' : Config, cfg'.validStates = cfg.validStates →
        cfg'.validGrades = cfg.validGrades →
        handle_predict cfg' r =
          .validationError (validationErrors cfg.validStates cfg.validGrades r) := by
      intro cfg' h1 h2
      unfold handle_predict
      rw [h1, h2, hvr]
    refine ⟨hvr, ?_, hall⟩
    rw [hall cfg rfl rfl]
    rfl
  · intro hy ha
    exact ⟨(validate_year_ok_iff r.year r.year).mpr ⟨hy.1, hy.2, rfl⟩,
           (validate_area_ok_iff r.area_ha r.area_ha).mpr ⟨ha.1, ha.2, rfl⟩⟩

/-- C9 witness: year 1999 is answered 422, while year 2023 and area 5
pass the two range checks. -/
theorem C9_range_validation_witness :
    statusOf (handle_predict cfgEx rawBadYear) = 422 ∧
    validate_year 2023 = .ok 2023 ∧ validate_area 5 = .ok 5 := by
  refine ⟨((C9_range_validation cfgEx rawBadYear).1 (Or.inl (by decide))).2.1, ?_, ?_⟩
  · exact ((C9_range_validation cfgEx rawWet).2 (by decide) (by decide)).1
  · exact ((C9_range_validation cfgEx rawWet).2 (by decide) (by decide)).2

/-- C10: For every unknown state label the validation message contains
exactly the first 10 known states followed by "... (and N more)" with
`N = total - 10` computed unconditionally as an integer — so with 10 or
fewer known states the reported count of further states is zero or
negative — whereas the unknown-grade message always lists the full grade
set. -/
theorem C10_error_message_truncation (vs gs : List String) (v g : String)
    (hv : v ∉ vs) (hg : g ∉ gs) :
    validate_state vs v = .error
      ("State \x27" ++ v ++ "\x27 not recognized. Available states: " ++
        String.intercalate ", " (vs.take 10) ++ "... (and " ++
        toString ((vs.length : Int) - 10) ++ " more)") ∧
    (vs.length ≤ 10 → vs.take 10 = vs ∧ (vs.length : Int) - 10 ≤ 0) ∧
    validate_grade gs g = .error
      ("Quality grade \x27" ++ g ++ "\x27 not recognized. Available grades: " ++
        String.intercalate ", " gs) := by
  refine ⟨?_, fun hle => ⟨List.take_of_length_le hle, by omega⟩, ?_⟩
  · unfold validate_state stateNotRecognizedMsg
    rw [if_pos hv]
  · unfold validate_grade gradeNotRecognizedMsg
    rw [if_pos hg]

/-- C10 witness: with only 2 known states, the unknown-state message
still truncates to the "first 10" and reports -8 further states, while
the unknown-grade message lists every grade. -/
theorem C10_error_message_truncation_witness :
    validate_state ["Abia", "Kano"] "Lagos" = .error
      ("State \x27" ++ "Lagos" ++ "\x27 not recognized. Available states: " ++
        String.intercalate ", " ((["Abia", "Kano"] : List String).take 10) ++
        "... (and " ++ toString (((["Abia", "Kano"] : List String).length : Int) - 10) ++
        " more)") ∧
    (["Abia", "Kano"] : List String).take 10 = ["Abia", "Kano"] ∧
    ((["Abia", "Kano"] : List String).length : Int) - 10 ≤ 0 ∧
    toString (((["Abia", "Kano"] : List String).length : Int) - 10) = "-8" ∧
    validate_grade ["A"] "Z" = .error
      ("Quality grade \x27" ++ "Z" ++ "\x27 not recognized. Available grades: " ++
        String.intercalate ", " ["A"]) := by
  have h := C10_error_message_truncation ["Abia", "Kano"] ["A"] "Lagos" "Z"
    (by decide) (by decide)
  exact ⟨h.1, (h.2.1 (by decide)).1, (h.2.1 (by decide)).2, rfl, h.2.2⟩

/-- C5 counterexample: the health body has no field named
`available_states_count` or `available_grades_count` — those keys are
absent from the object returned for a concrete configuration, so the
claimed field names are wrong. -/
theorem C5_health_counterexample :
    List.lookup "available_states_count" (health_check cfgEx) = none ∧
    List.lookup "available_grades_count" (health_check cfgEx) = none :=
  ⟨rfl, rfl⟩

/-- C5 (amended): the GET /health body has exactly the fields `status`,
`model_loaded`, `available_states` and `available_grades` — the two count
fields are named `available_states`/`available_grades`, not
`available_states_count`/`available_grades_count` — and the two counts
equal the sizes of the known label sets of the state and grade encoders. -/
theorem C5_health_fields (cfg : Config) :
    List.lookup "status" (health_check cfg) = some (JVal.s "healthy") ∧
    List.lookup "model_loaded" (health_check cfg) = some (JVal.b cfg.modelLoaded) ∧
    List.lookup "available_states" (health_check cfg) =
      some (JVal.n cfg.validStates.length) ∧
    List.lookup "available_grades" (health_check cfg) =
      some (JVal.n cfg.validGrades.length) ∧
    (health_check cfg).map Prod.fst =
      ["status", "model_loaded", "available_states", "available_grades"] :=
  ⟨rfl, rfl, rfl, rfl, rfl⟩

/-- C6 counterexample: an internal prediction failure after successful
validation is not reported as a generic failure — the 500 detail embeds
the exception message, and two configurations differing only in the
internal exception text produce caller-visible different responses. -/
theorem C6_counterexample :
    handle_predict cfgLeak rawWet =
      .internalError "Prediction failed: ValueError: boom" ∧
    handle_predict cfgLeakB rawWet =
      .internalError "Prediction failed: ValueError: other" ∧
    handle_predict cfgLeak rawWet ≠ handle_predict cfgLeakB rawWet := by
  refine ⟨rfl, rfl, ?_⟩
  decide

/-- C6 (amended): when encoding or prediction fails internally after
validation has passed, the caller receives HTTP 500 whose detail string
is "Prediction failed: " followed by the message of the raised exception — so
the internal exception text is included in the response rather than
withheld (the full traceback is additionally printed server-side, which
is outside this model). -/
theorem C6_internal_error_detail (cfg : Config) (r : RawRequest)
    (req : ValidatedRequest) (e : String)
    (hv : validateRequest cfg.validStates cfg.validGrades r = .ok req)
    (hp : predict_yield cfg req = .error e) :
    handle_predict cfg r = .internalError ("Prediction failed: " ++ e) ∧
    statusOf (handle_predict cfg r) = 500 := by
  have h1 : handle_predict cfg r = .internalError ("Prediction failed: " ++ e) := by
    rw [handle_predict_of_ok cfg r req hv, hp]
  rw [h1]
  exact ⟨rfl, rfl⟩

/-- C6 witness: the concrete raising model produces the 500 with its
exception text appended to the detail. -/
theorem C6_internal_error_detail_witness :
    handle_predict cfgLeak rawWet =
      .internalError ("Prediction failed: " ++ "ValueError: boom") ∧
    statusOf (handle_predict cfgLeak rawWet) = 500 :=
  C6_internal_error_detail cfgLeak rawWet reqWet "ValueError: boom" rfl rfl

/-- C7: For every request that passes validation and predicts
successfully, the response holds the predictor output rounded to 2
decimal places, the unit "tonnes/hectare", the fixed model name, and
`input_parameters` echoing exactly the normalized request fields (state,
lowercased season, year, area_ha, quality_grade). -/
theorem C7_response_shape (cfg : Config) (r : RawRequest) (req : ValidatedRequest)
    (resp : YieldPredictionResponse)
    (hv : validateRequest cfg.validStates cfg.validGrades r = .ok req)
    (hp : handle_predict cfg r = .ok resp) :
    ∃ cols vec pred,
      encodeFeatures cfg req = .ok cols ∧
      reorderColumns cols cfg.feature_names = .ok vec ∧
      cfg.predict vec = .ok pred ∧
      resp.predicted_yield = round2 pred ∧
      resp.unit = "tonnes/hectare" ∧
      resp.model_used = "Random Forest" ∧
      resp.input_parameters =
        ⟨r.state, lowerString r.season, r.year, r.area_ha, r.quality_grade⟩ := by
  have hreq : req = ⟨r.state, lowerString r.season, r.year, r.area_ha, r.quality_grade⟩ :=
    ((validateRequest_ok_iff cfg.validStates cfg.validGrades r req).mp hv).2.2.2.2.2.2.2
  cases hce : encodeFeatures cfg req with
  | error e =>
    have hpy : predict_yield cfg req = .error e := by
      unfold predict_yield
      rw [hce]
    rw [handle_predict_of_ok cfg r req hv, hpy] at hp
    exact absurd hp (by simp)
  | ok cols =>
    cases hrc : reorderColumns cols cfg.feature_names with
    | error e =>
      have hpy : predict_yield cfg req = .error e := by
        rw [predict_yield_of_encode cfg req cols hce, hrc]
      rw [handle_predict_of_ok cfg r req hv, hpy] at hp
      exact absurd hp (by simp)
    | ok vec =>
      cases hpd : cfg.predict vec with
      | error e =>
        have hpy : predict_yield cfg req = .error e := by
          rw [predict_yield_of_reorder cfg req cols vec hce hrc, hpd]
        rw [handle_predict_of_ok cfg r req hv, hpy] at hp
        exact absurd hp (by simp)
      | ok pred =>
        have hpy : predict_yield cfg req = .ok ⟨round2 pred,
            ⟨req.state, req.season, req.year, req.area_ha, req.quality_grade⟩,
            "Random Forest", "tonnes/hectare"⟩ := by
          rw [predict_yield_of_reorder cfg req cols vec hce hrc, hpd]
        rw [handle_predict_of_ok cfg r req hv, hpy] at hp
        injection hp with hp
        subst hreq
        exact ⟨cols, vec, pred, rfl, hrc, hpd, by rw [← hp], by rw [← hp],
               by rw [← hp], by rw [← hp]⟩

/-- C7 witness: the concrete wet-season request under `cfgEx` yields the
fully specified response. -/
theorem C7_response_shape_witness :
    ∃ cols vec pred,
      encodeFeatures cfgEx reqWet = .ok cols ∧
      reorderColumns cols cfgEx.feature_names = .ok vec ∧
      cfgEx.predict vec = .ok pred ∧
      respWet.predicted_yield = round2 pred ∧
      respWet.unit = "tonnes/hectare" ∧
      respWet.model_used = "Random Forest" ∧
      respWet.input_parameters =
        ⟨rawWet.state, lowerString rawWet.season, rawWet.year, rawWet.area_ha,
         rawWet.quality_grade⟩ :=
  C7_response_shape cfgEx rawWet reqWet respWet rfl rfl

/-- C8: For every batch request, a successful batch response has `count`
equal to the number of input items and, in input order, exactly the
response each item would receive from the single-prediction endpoint;
and if any item fails on the single-prediction endpoint, the whole batch
fails — no partial results are ever returned. -/
theorem C8_batch_policy (cfg : Config) (rs : List RawRequest) :
    (∀ n ps, predict_yield_batch cfg rs = .ok n ps →
       n = rs.length ∧ ps.length = rs.length ∧
       ∀ i (hi : i < rs.length) (hp : i < ps.length),
         handle_predict cfg (rs.get ⟨i, hi⟩) = .ok (ps.get ⟨i, hp⟩)) ∧
    (∀ r, r ∈ rs → (∀ resp, handle_predict cfg r ≠ .ok resp) →
       ∀ n ps, predict_yield_batch cfg rs ≠ .ok n ps) := by
  have main : ∀ n ps, predict_yield_batch cfg rs = .ok n ps →
      n = rs.length ∧ ps.length = rs.length ∧
      ∀ i (hi : i < rs.length) (hp : i < ps.length),
        handle_predict cfg (rs.get ⟨i, hi⟩) = .ok (ps.get ⟨i, hp⟩) := by
    intro n ps hb
    unfold predict_yield_batch at hb
    split at hb
    · exact absurd hb (by simp)
    · rename_i reqs hmv
      split at hb
      · exact absurd hb (by simp)
      · rename_i ps' hmp
        injection hb with hb1 hb2
        have hlen1 : reqs.length = rs.length :=
          mapExcept_ok_length (validateRequest cfg.validStates cfg.validGrades) rs reqs hmv
        have hlen2 : ps'.length = reqs.length :=
          mapExcept_ok_length _ reqs ps' hmp
        subst hb1
        subst hb2
        refine ⟨by omega, by omega, ?_⟩
        intro i hi hp
        have hir : i < reqs.length := by omega
        have hvi := mapExcept_ok_get (validateRequest cfg.validStates cfg.validGrades)
          rs reqs hmv i hi hir
        have hpi := mapExcept_ok_get _ reqs _ hmp i hir hp
        have hpy := (mapError_ok_iff _ _ _).mp hpi
        rw [handle_predict_of_ok cfg (rs.get ⟨i, hi⟩) (reqs.get ⟨i, hir⟩) hvi, hpy]
  refine ⟨main, ?_⟩
  intro r hr hnot n ps hb
  obtain ⟨⟨i, hi⟩, hidx⟩ := List.get_of_mem hr
  obtain ⟨h1, h2, h3⟩ := main n ps hb
  have hp : i < ps.length := by omega
  have hthis := h3 i hi hp
  rw [hidx] at hthis
  exact hnot (ps.get ⟨i, hp⟩) hthis

/-- C8 witness: a concrete 2-item batch succeeds with count 2 and one
response per input. -/
theorem C8_batch_policy_witness :
    (2 : ℕ) = ([rawWet, rawDry] : List RawRequest).length ∧
    ([respWet, respDry] : List YieldPredictionResponse).length =
      ([rawWet, rawDry] : List RawRequest).length := by
  have h := (C8_batch_policy cfgEx [rawWet, rawDry]).1 2 [respWet, respDry] rfl
  exact ⟨h.1, h.2.1⟩

end MaizeAPI
